import Mathlib

/-!
# crypto/fipsmodule/sha/internal.h

A shallow embedding of the header's preprocessor definitions (the SHA-2 chaining
lengths, the SHA3/SHAKE constants, the Keccak context structure) and of its
per-platform dispatch section (feature defines, inline capability predicates,
prototypes).

The constants are kept as token lists, exactly as written after each `#define`,
and are given their value by textual expansion followed by parsing under the C
operator precedence, so that an unparenthesised replacement list behaves here as
it does in C.
-/

namespace ShaInternal

/-! ## Identifiers and tokens -/

/-- Identifiers of the constant section of the header (lines 33-88), the formal
parameter `bitlen` of `SHA3_BLOCKSIZE`, and a program variable `n` used to write
expressions that have a constant as an operand. -/
inductive Ident
  | SHA1_CHAINING_LENGTH
  | SHA224_CHAINING_LENGTH
  | SHA256_CHAINING_LENGTH
  | SHA384_CHAINING_LENGTH
  | SHA512_CHAINING_LENGTH
  | SHA512_224_CHAINING_LENGTH
  | SHA512_256_CHAINING_LENGTH
  | KECCAK1600_ROWS
  | KECCAK1600_WIDTH
  | SHA3_224_CAPACITY_BYTES
  | SHA3_224_CBLOCK
  | SHA3_224_DIGEST_BITLENGTH
  | SHA3_224_DIGEST_LENGTH
  | SHA3_256_CAPACITY_BYTES
  | SHA3_256_CBLOCK
  | SHA3_256_DIGEST_BITLENGTH
  | SHA3_256_DIGEST_LENGTH
  | SHA3_384_CAPACITY_BYTES
  | SHA3_384_CBLOCK
  | SHA3_384_DIGEST_BITLENGTH
  | SHA3_384_DIGEST_LENGTH
  | SHA3_512_CAPACITY_BYTES
  | SHA3_512_CBLOCK
  | SHA3_512_DIGEST_BITLENGTH
  | SHA3_512_DIGEST_LENGTH
  | SHA3_BLOCKSIZE
  | SHA3_PAD_CHAR
  | SHAKE_PAD_CHAR
  | SHAKE128_BLOCKSIZE
  | SHAKE256_BLOCKSIZE
  | XOF_BLOCKBYTES
  | SHA3_MAX_BLOCKSIZE
  | KECCAK1600_STATE_ABSORB
  | KECCAK1600_STATE_SQUEEZE
  | KECCAK1600_STATE_FINAL
  | bitlen
  | n
  deriving DecidableEq, Repr

/-- Preprocessing tokens that occur in the replacement lists of the header. -/
inductive Tok
  | num (v : Nat)
  | id (x : Ident)
  | lp
  | rp
  | plus
  | minus
  | star
  | slash
  | percent
  deriving DecidableEq, Repr

/-- A `#define`: object-like, or function-like with one formal parameter. -/
inductive Define
  | object (body : List Tok)
  | function (param : Ident) (body : List Tok)
  deriving DecidableEq, Repr

open Ident Tok in
/-- The `#define` lines 33-88 of the header, replacement lists token by token. -/
def defines : Ident → Option Define
  | SHA1_CHAINING_LENGTH => some (.object [num 20])
  | SHA224_CHAINING_LENGTH => some (.object [num 32])
  | SHA256_CHAINING_LENGTH => some (.object [num 32])
  | SHA384_CHAINING_LENGTH => some (.object [num 64])
  | SHA512_CHAINING_LENGTH => some (.object [num 64])
  | SHA512_224_CHAINING_LENGTH => some (.object [num 64])
  | SHA512_256_CHAINING_LENGTH => some (.object [num 64])
  | KECCAK1600_ROWS => some (.object [num 5])
  | KECCAK1600_WIDTH => some (.object [num 1600])
  | SHA3_224_CAPACITY_BYTES => some (.object [num 56])
  | SHA3_224_CBLOCK =>
      some (.object [id SHA3_BLOCKSIZE, lp, id SHA3_224_DIGEST_BITLENGTH, rp])
  | SHA3_224_DIGEST_BITLENGTH => some (.object [num 224])
  | SHA3_224_DIGEST_LENGTH => some (.object [num 28])
  | SHA3_256_CAPACITY_BYTES => some (.object [num 64])
  | SHA3_256_CBLOCK =>
      some (.object [id SHA3_BLOCKSIZE, lp, id SHA3_256_DIGEST_BITLENGTH, rp])
  | SHA3_256_DIGEST_BITLENGTH => some (.object [num 256])
  | SHA3_256_DIGEST_LENGTH => some (.object [num 32])
  | SHA3_384_CAPACITY_BYTES => some (.object [num 96])
  | SHA3_384_CBLOCK =>
      some (.object [id SHA3_BLOCKSIZE, lp, id SHA3_384_DIGEST_BITLENGTH, rp])
  | SHA3_384_DIGEST_BITLENGTH => some (.object [num 384])
  | SHA3_384_DIGEST_LENGTH => some (.object [num 48])
  | SHA3_512_CAPACITY_BYTES => some (.object [num 128])
  | SHA3_512_CBLOCK =>
      some (.object [id SHA3_BLOCKSIZE, lp, id SHA3_512_DIGEST_BITLENGTH, rp])
  | SHA3_512_DIGEST_BITLENGTH => some (.object [num 512])
  | SHA3_512_DIGEST_LENGTH => some (.object [num 64])
  | SHA3_BLOCKSIZE =>
      some (.function bitlen
        [lp, id KECCAK1600_WIDTH, minus, id bitlen, star, num 2, rp, slash, num 8])
  | SHA3_PAD_CHAR => some (.object [num 0x06])
  | SHAKE_PAD_CHAR => some (.object [num 0x1F])
  | SHAKE128_BLOCKSIZE =>
      some (.object
        [lp, lp, id KECCAK1600_WIDTH, minus, num 128, star, num 2, rp, slash, num 8, rp])
  | SHAKE256_BLOCKSIZE =>
      some (.object
        [lp, lp, id KECCAK1600_WIDTH, minus, num 256, star, num 2, rp, slash, num 8, rp])
  | XOF_BLOCKBYTES => some (.object [id SHAKE128_BLOCKSIZE])
  | SHA3_MAX_BLOCKSIZE => some (.object [id SHAKE128_BLOCKSIZE])
  | KECCAK1600_STATE_ABSORB => some (.object [num 0])
  | KECCAK1600_STATE_SQUEEZE => some (.object [num 1])
  | KECCAK1600_STATE_FINAL => some (.object [num 2])
  | bitlen => none
  | n => none

/-! ## Textual expansion -/

/-- Collects the tokens of a macro argument up to the closing parenthesis that
matches the already consumed opening one; `depth` counts nested parentheses and
`acc` holds the argument read so far, reversed. Returns the argument and the
tokens after the closing parenthesis. -/
def takeArg : Nat → List Tok → List Tok → Option (List Tok × List Tok)
  | _, _, [] => none
  | 0, acc, Tok.rp :: rest => some (acc.reverse, rest)
  | d + 1, acc, Tok.rp :: rest => takeArg d (Tok.rp :: acc) rest
  | d, acc, Tok.lp :: rest => takeArg (d + 1) (Tok.lp :: acc) rest
  | d, acc, t :: rest => takeArg d (t :: acc) rest

/-- Replaces each occurrence of the formal parameter by the argument's tokens. -/
def substParam (param : Ident) (arg : List Tok) : List Tok → List Tok
  | [] => []
  | Tok.id x :: rest =>
      if x = param then arg ++ substParam param arg rest
      else Tok.id x :: substParam param arg rest
  | t :: rest => t :: substParam param arg rest

/-- Macro expansion of a token list: an object-like macro is replaced by its
replacement list; a function-like macro followed by `(` has its argument
expanded, substituted for the parameter, and the result is rescanned together
with the following tokens. `none` when the fuel runs out or an invocation is not
closed. -/
def expand : Nat → List Tok → Option (List Tok)
  | 0, _ => none
  | _ + 1, [] => some []
  | k + 1, Tok.id x :: rest =>
      match defines x with
      | none => (expand k rest).map (Tok.id x :: ·)
      | some (.object body) => expand k (body ++ rest)
      | some (.function param body) =>
          match rest with
          | Tok.lp :: rest1 =>
              match takeArg 0 [] rest1 with
              | none => none
              | some (arg, rest2) =>
                  match expand k arg with
                  | none => none
                  | some arg1 => expand k (substParam param arg1 body ++ rest2)
          | _ => (expand k rest).map (Tok.id x :: ·)
  | k + 1, t :: rest => (expand k rest).map (t :: ·)

/-! ## C expressions -/

/-- Abstract syntax of the arithmetic expressions the constants expand to. -/
inductive CExpr
  | num (v : Nat)
  | var (x : Ident)
  | add (a b : CExpr)
  | sub (a b : CExpr)
  | mul (a b : CExpr)
  | div (a b : CExpr)
  | mod (a b : CExpr)
  deriving DecidableEq, Repr

/-- Primary expression: a constant, an identifier, or a parenthesised expression
(parsed by `sub`). -/
def parsePrimary (sub : List Tok → Option (CExpr × List Tok)) :
    List Tok → Option (CExpr × List Tok)
  | Tok.num v :: rest => some (.num v, rest)
  | Tok.id x :: rest => some (.var x, rest)
  | Tok.lp :: rest =>
      match sub rest with
      | some (e, Tok.rp :: rest1) => some (e, rest1)
      | _ => none
  | _ => none

/-- Tail of a multiplicative expression: `*`, `/` and `%` associate to the left. -/
def mulTail (prim : List Tok → Option (CExpr × List Tok)) :
    Nat → CExpr → List Tok → Option (CExpr × List Tok)
  | 0, _, _ => none
  | k + 1, lhs, Tok.star :: rest =>
      match prim rest with
      | some (rhs, rest1) => mulTail prim k (.mul lhs rhs) rest1
      | none => none
  | k + 1, lhs, Tok.slash :: rest =>
      match prim rest with
      | some (rhs, rest1) => mulTail prim k (.div lhs rhs) rest1
      | none => none
  | k + 1, lhs, Tok.percent :: rest =>
      match prim rest with
      | some (rhs, rest1) => mulTail prim k (.mod lhs rhs) rest1
      | none => none
  | _ + 1, lhs, rest => some (lhs, rest)

/-- Multiplicative expression. -/
def parseMul (prim : List Tok → Option (CExpr × List Tok)) (fuel : Nat)
    (ts : List Tok) : Option (CExpr × List Tok) :=
  match prim ts with
  | some (lhs, rest) => mulTail prim fuel lhs rest
  | none => none

/-- Tail of an additive expression: `+` and `-` associate to the left and bind
less tightly than the multiplicative operators. -/
def addTail (mul : List Tok → Option (CExpr × List Tok)) :
    Nat → CExpr → List Tok → Option (CExpr × List Tok)
  | 0, _, _ => none
  | k + 1, lhs, Tok.plus :: rest =>
      match mul rest with
      | some (rhs, rest1) => addTail mul k (.add lhs rhs) rest1
      | none => none
  | k + 1, lhs, Tok.minus :: rest =>
      match mul rest with
      | some (rhs, rest1) => addTail mul k (.sub lhs rhs) rest1
      | none => none
  | _ + 1, lhs, rest => some (lhs, rest)

/-- Additive expression, the top level of the grammar used here. -/
def parseExpr : Nat → List Tok → Option (CExpr × List Tok)
  | 0, _ => none
  | k + 1, ts =>
      match parseMul (parsePrimary (parseExpr k)) (k + 1) ts with
      | some (lhs, rest) =>
          addTail (parseMul (parsePrimary (parseExpr k)) (k + 1)) (k + 1) lhs rest
      | none => none

/-- Parses a whole token list as one expression. -/
def parse (ts : List Tok) : Option CExpr :=
  match parseExpr (ts.length + 1) ts with
  | some (e, []) => some e
  | _ => none

/-- Value of an expression over non-negative integers, the program variables
read from `env`. `none` for an unbound identifier, a division by zero, or a
subtraction whose result would be negative (outside the modelled range). -/
def eval (env : Ident → Option Nat) : CExpr → Option Nat
  | .num v => some v
  | .var x => env x
  | .add a b =>
      match eval env a, eval env b with
      | some x, some y => some (x + y)
      | _, _ => none
  | .sub a b =>
      match eval env a, eval env b with
      | some x, some y => if y ≤ x then some (x - y) else none
      | _, _ => none
  | .mul a b =>
      match eval env a, eval env b with
      | some x, some y => some (x * y)
      | _, _ => none
  | .div a b =>
      match eval env a, eval env b with
      | some x, some y => if y = 0 then none else some (x / y)
      | _, _ => none
  | .mod a b =>
      match eval env a, eval env b with
      | some x, some y => if y = 0 then none else some (x % y)
      | _, _ => none

/-- Fuel for `expand`: every identifier of the header expands within it. -/
def expandFuel (ts : List Tok) : Nat := 16 * (ts.length + 1)

/-- The expression a C source text denotes: expansion, then parsing. -/
def cExpr (ts : List Tok) : Option CExpr :=
  match expand (expandFuel ts) ts with
  | some ts1 => parse ts1
  | none => none

/-- Environment with no program variable bound. -/
def noVars : Ident → Option Nat := fun _ => none

/-- Environment binding the program variable `n`. -/
def withN (v : Nat) : Ident → Option Nat := fun x => if x = Ident.n then some v else none

/-- Value of a constant C expression written with the header's macros. -/
def cValue (ts : List Tok) : Option Nat :=
  match cExpr ts with
  | some e => eval noVars e
  | none => none

/-- Value of a C expression over the header's macros and the variable `n`. -/
def cValueAt (v : Nat) (ts : List Tok) : Option Nat :=
  match cExpr ts with
  | some e => eval (withN v) e
  | none => none

/-- Value of one of the header's constants (0 if it had none). -/
def constant (x : Ident) : Nat := (cValue [Tok.id x]).getD 0

/-! ## The Keccak context -/

/-- Width in bits of a `uint64_t` lane of the state matrix. -/
def laneBits : Nat := 64

/-- The structure `keccak_ctx_st` (lines 94-102): `uint64_t` lanes, `size_t`
counters, the `uint8_t` buffer of `SHA3_MAX_BLOCKSIZE` bytes, and the two
`uint8_t` fields. -/
structure keccak_ctx_st where
  A : Fin (constant .KECCAK1600_ROWS) → Fin (constant .KECCAK1600_ROWS) → Fin (2 ^ laneBits)
  block_size : Nat
  md_size : Nat
  buf_load : Nat
  buf : Fin (constant .SHA3_MAX_BLOCKSIZE) → Fin (2 ^ 8)
  pad : Fin (2 ^ 8)
  state : Fin (2 ^ 8)

/-- A SHA3-256 context in the absorb phase with five bytes buffered. -/
def sha3_256_ctx : keccak_ctx_st :=
  { A := fun _ _ => 0, block_size := 136, md_size := 32, buf_load := 5,
    buf := fun _ => 0, pad := 6, state := 0 }

/-- The six SHA3/SHAKE algorithms whose block size the header defines. -/
inductive KeccakVariant
  | SHA3_224
  | SHA3_256
  | SHA3_384
  | SHA3_512
  | SHAKE128
  | SHAKE256
  deriving DecidableEq, Repr

/-- The constant that names the block size of each algorithm. -/
def blockSizeName : KeccakVariant → Ident
  | .SHA3_224 => .SHA3_224_CBLOCK
  | .SHA3_256 => .SHA3_256_CBLOCK
  | .SHA3_384 => .SHA3_384_CBLOCK
  | .SHA3_512 => .SHA3_512_CBLOCK
  | .SHAKE128 => .SHAKE128_BLOCKSIZE
  | .SHAKE256 => .SHAKE256_BLOCKSIZE

/-- Block size in bytes of each algorithm. -/
def blockSize (v : KeccakVariant) : Nat := constant (blockSizeName v)

/-! ## The SHA-1/SHA-2 state -/

/-- The three compression functions. -/
inductive Family
  | SHA1
  | SHA256
  | SHA512
  deriving DecidableEq, Repr

/-- Number of words of the `state` parameter of `sha*_block_data_order_*`
(`state[5]` for SHA-1, `state[8]` for SHA-256 and SHA-512; lines 314-338). -/
def stateWords : Family → Nat
  | .SHA1 => 5
  | .SHA256 => 8
  | .SHA512 => 8

/-- Size in bytes of one word of that parameter (`uint32_t` for SHA-1 and
SHA-256, `uint64_t` for SHA-512). -/
def stateWordBytes : Family → Nat
  | .SHA1 => 4
  | .SHA256 => 4
  | .SHA512 => 8

/-- The hash functions that have a `SHAx_Init_from_state` (lines 352-365). -/
inductive ShaVariant
  | SHA1
  | SHA224
  | SHA256
  | SHA384
  | SHA512
  | SHA512_224
  | SHA512_256
  deriving DecidableEq, Repr

/-- The context type each `SHAx_Init_from_state` takes: `SHA_CTX` for SHA-1,
`SHA256_CTX` for SHA-224 and SHA-256, `SHA512_CTX` for the others. -/
def contextFamily : ShaVariant → Family
  | .SHA1 => .SHA1
  | .SHA224 => .SHA256
  | .SHA256 => .SHA256
  | .SHA384 => .SHA512
  | .SHA512 => .SHA512
  | .SHA512_224 => .SHA512
  | .SHA512_256 => .SHA512

/-- The constant that dimensions the `h` parameter of each
`SHAx_Init_from_state`. -/
def chainingLengthName : ShaVariant → Ident
  | .SHA1 => .SHA1_CHAINING_LENGTH
  | .SHA224 => .SHA224_CHAINING_LENGTH
  | .SHA256 => .SHA256_CHAINING_LENGTH
  | .SHA384 => .SHA384_CHAINING_LENGTH
  | .SHA512 => .SHA512_CHAINING_LENGTH
  | .SHA512_224 => .SHA512_224_CHAINING_LENGTH
  | .SHA512_256 => .SHA512_256_CHAINING_LENGTH

/-- Modelled from the spec: the digest length in bits of each SHA-1/SHA-2
function, as its name gives it (SHA-1 160; SHA-2 224/256/384/512 and the
truncated SHA-512/224 and SHA-512/256); their `SHA*_DIGEST_LENGTH` constants
are defined by `openssl/sha.h`, not by this header. -/
def digestBits : ShaVariant → Nat
  | .SHA1 => 160
  | .SHA224 => 224
  | .SHA256 => 256
  | .SHA384 => 384
  | .SHA512 => 512
  | .SHA512_224 => 224
  | .SHA512_256 => 256

/-- The truncated functions and the full-width function they are derived from. -/
def truncatedOf : ShaVariant → Option ShaVariant
  | .SHA224 => some .SHA256
  | .SHA384 => some .SHA512
  | .SHA512_224 => some .SHA512
  | .SHA512_256 => some .SHA512
  | _ => none

/-! ## The per-platform dispatch section (lines 116-343) -/

/-- Feature macros the section defines (`#define X` with an empty body). -/
inductive Feature
  | SHA1_ALTIVEC
  | SHA1_ASM_NOHW
  | SHA256_ASM_NOHW
  | SHA512_ASM_NOHW
  | SHA1_ASM_HW
  | SHA1_ASM_NEON
  | SHA1_ASM_AVX2
  | SHA1_ASM_AVX
  | SHA1_ASM_SSSE3
  | SHA256_ASM_HW
  | SHA256_ASM_NEON
  | SHA256_ASM_AVX
  | SHA256_ASM_SSSE3
  | SHA512_ASM
  | SHA512_ASM_HW
  | SHA512_ASM_NEON
  | SHA512_ASM_AVX
  | KECCAK1600_ASM
  deriving DecidableEq, Repr

/-- Functions the section defines inline or declares. -/
inductive Fn
  | sha1_block_data_order
  | sha1_hw_capable
  | sha1_avx2_capable
  | sha1_avx_capable
  | sha1_ssse3_capable
  | sha256_hw_capable
  | sha256_avx_capable
  | sha256_ssse3_capable
  | sha512_hw_capable
  | sha512_avx_capable
  | sha1_block_data_order_neon
  | sha1_block_data_order_avx2
  | sha1_block_data_order_avx
  | sha1_block_data_order_ssse3
  | sha1_block_data_order_hw
  | sha1_block_data_order_nohw
  | sha256_block_data_order_neon
  | sha256_block_data_order_avx
  | sha256_block_data_order_ssse3
  | sha256_block_data_order_hw
  | sha256_block_data_order_nohw
  | sha512_block_data_order
  | sha512_block_data_order_neon
  | sha512_block_data_order_avx
  | sha512_block_data_order_hw
  | sha512_block_data_order_nohw
  deriving DecidableEq, Repr

/-- The capability queries of `../cpucap/internal.h` that the inline predicates
call. Their definitions are outside this header; an oracle `Query → Int` gives
the `int` each returns. -/
inductive Query
  | CRYPTO_is_ARMv8_SHA1_capable
  | CRYPTO_is_ARMv8_SHA256_capable
  | CRYPTO_is_ARMv8_SHA512_capable
  | CRYPTO_is_SSSE3_capable
  | CRYPTO_is_FXSR_capable
  | CRYPTO_is_AVX_capable
  | CRYPTO_is_AVX2_capable
  | CRYPTO_is_BMI1_capable
  | CRYPTO_is_BMI2_capable
  | CRYPTO_is_SHAEXT_capable
  | CRYPTO_is_intel_cpu
  deriving DecidableEq, Repr

/-- The returned expression of an inline predicate: a query call, or `a && b`. -/
inductive Cond
  | call (q : Query)
  | and (a b : Cond)
  deriving DecidableEq, Repr

/-- Value of a returned expression: a call yields the query's `int`; `a && b`
yields 0 when `a` is zero (without evaluating `b`), 0 when `b` is zero, and 1
otherwise. -/
def evalCond (o : Query → Int) : Cond → Int
  | .call q => o q
  | .and a b => if evalCond o a = 0 then 0 else if evalCond o b = 0 then 0 else 1

/-- The queries named in a returned expression. -/
def consults : Cond → List Query
  | .call q => [q]
  | .and a b => consults a ++ consults b

/-- One line group of the section: a feature `#define`, an `OPENSSL_INLINE`
predicate with the expression it returns, or a function prototype. -/
inductive Item
  | define (m : Feature)
  | inlineFn (f : Fn) (body : Cond)
  | proto (f : Fn)
  deriving DecidableEq, Repr

/-- The platform macros the `#if` chain tests. -/
structure Config where
  OPENSSL_PPC64LE : Bool
  OPENSSL_NO_ASM : Bool
  OPENSSL_ARM : Bool
  OPENSSL_AARCH64 : Bool
  OPENSSL_X86 : Bool
  OPENSSL_X86_64 : Bool
  deriving DecidableEq, Repr

namespace PPC64LE

/-- Lines 120-123. -/
def items : List Item :=
  [.define .SHA1_ALTIVEC, .proto .sha1_block_data_order]

end PPC64LE

namespace ARM

/-- Lines 132-134. -/
def sha1_hw_capable : Cond := .call .CRYPTO_is_ARMv8_SHA1_capable

/-- Lines 141-143. -/
def sha256_hw_capable : Cond := .call .CRYPTO_is_ARMv8_SHA256_capable

/-- Lines 127-152. -/
def items : List Item :=
  [.define .SHA1_ASM_NOHW, .define .SHA256_ASM_NOHW, .define .SHA512_ASM_NOHW,
   .define .SHA1_ASM_HW, .inlineFn .sha1_hw_capable sha1_hw_capable,
   .define .SHA1_ASM_NEON, .proto .sha1_block_data_order_neon,
   .define .SHA256_ASM_HW, .inlineFn .sha256_hw_capable sha256_hw_capable,
   .define .SHA256_ASM_NEON, .proto .sha256_block_data_order_neon,
   .define .SHA512_ASM_NEON, .proto .sha512_block_data_order_neon]

end ARM

namespace AARCH64

/-- Lines 161-163. -/
def sha1_hw_capable : Cond := .call .CRYPTO_is_ARMv8_SHA1_capable

/-- Lines 166-168. -/
def sha256_hw_capable : Cond := .call .CRYPTO_is_ARMv8_SHA256_capable

/-- Lines 171-173. -/
def sha512_hw_capable : Cond := .call .CRYPTO_is_ARMv8_SHA512_capable

/-- Lines 156-173. -/
def items : List Item :=
  [.define .SHA1_ASM_NOHW, .define .SHA256_ASM_NOHW, .define .SHA512_ASM_NOHW,
   .define .SHA1_ASM_HW, .inlineFn .sha1_hw_capable sha1_hw_capable,
   .define .SHA256_ASM_HW, .inlineFn .sha256_hw_capable sha256_hw_capable,
   .define .SHA512_ASM_HW, .inlineFn .sha512_hw_capable sha512_hw_capable]

end AARCH64

namespace X86

/-- Lines 181-185. -/
def sha1_ssse3_capable : Cond :=
  .and (.call .CRYPTO_is_SSSE3_capable) (.call .CRYPTO_is_FXSR_capable)

/-- Lines 190-199; `a && b && c` groups as `(a && b) && c`. -/
def sha1_avx_capable : Cond :=
  .and (.and (.call .CRYPTO_is_AVX_capable) (.call .CRYPTO_is_intel_cpu))
    (.call .CRYPTO_is_FXSR_capable)

/-- Lines 204-208. -/
def sha256_ssse3_capable : Cond :=
  .and (.call .CRYPTO_is_SSSE3_capable) (.call .CRYPTO_is_FXSR_capable)

/-- Lines 213-222. -/
def sha256_avx_capable : Cond :=
  .and (.and (.call .CRYPTO_is_AVX_capable) (.call .CRYPTO_is_intel_cpu))
    (.call .CRYPTO_is_FXSR_capable)

/-- Lines 177-229. -/
def items : List Item :=
  [.define .SHA1_ASM_NOHW, .define .SHA256_ASM_NOHW,
   .define .SHA1_ASM_SSSE3, .inlineFn .sha1_ssse3_capable sha1_ssse3_capable,
   .proto .sha1_block_data_order_ssse3,
   .define .SHA1_ASM_AVX, .inlineFn .sha1_avx_capable sha1_avx_capable,
   .proto .sha1_block_data_order_avx,
   .define .SHA256_ASM_SSSE3, .inlineFn .sha256_ssse3_capable sha256_ssse3_capable,
   .proto .sha256_block_data_order_ssse3,
   .define .SHA256_ASM_AVX, .inlineFn .sha256_avx_capable sha256_avx_capable,
   .proto .sha256_block_data_order_avx,
   .define .SHA512_ASM, .proto .sha512_block_data_order]

end X86

namespace X86_64

/-- Lines 238-240. -/
def sha1_hw_capable : Cond :=
  .and (.call .CRYPTO_is_SHAEXT_capable) (.call .CRYPTO_is_SSSE3_capable)

/-- Lines 243-249. -/
def sha1_avx2_capable : Cond :=
  .and (.and (.and (.call .CRYPTO_is_AVX2_capable) (.call .CRYPTO_is_BMI2_capable))
    (.call .CRYPTO_is_BMI1_capable)) (.call .CRYPTO_is_SSSE3_capable)

/-- Lines 254-262. -/
def sha1_avx_capable : Cond :=
  .and (.and (.call .CRYPTO_is_AVX_capable) (.call .CRYPTO_is_SSSE3_capable))
    (.call .CRYPTO_is_intel_cpu)

/-- Lines 267-269. -/
def sha1_ssse3_capable : Cond := .call .CRYPTO_is_SSSE3_capable

/-- Lines 274-276. -/
def sha256_hw_capable : Cond := .call .CRYPTO_is_SHAEXT_capable

/-- Lines 279-287. -/
def sha256_avx_capable : Cond :=
  .and (.and (.call .CRYPTO_is_AVX_capable) (.call .CRYPTO_is_SSSE3_capable))
    (.call .CRYPTO_is_intel_cpu)

/-- Lines 292-294. -/
def sha256_ssse3_capable : Cond := .call .CRYPTO_is_SSSE3_capable

/-- Lines 299-307. -/
def sha512_avx_capable : Cond :=
  .and (.and (.call .CRYPTO_is_AVX_capable) (.call .CRYPTO_is_SSSE3_capable))
    (.call .CRYPTO_is_intel_cpu)

/-- Lines 233-309. -/
def items : List Item :=
  [.define .SHA1_ASM_NOHW, .define .SHA256_ASM_NOHW, .define .SHA512_ASM_NOHW,
   .define .SHA1_ASM_HW, .inlineFn .sha1_hw_capable sha1_hw_capable,
   .define .SHA1_ASM_AVX2, .inlineFn .sha1_avx2_capable sha1_avx2_capable,
   .proto .sha1_block_data_order_avx2,
   .define .SHA1_ASM_AVX, .inlineFn .sha1_avx_capable sha1_avx_capable,
   .proto .sha1_block_data_order_avx,
   .define .SHA1_ASM_SSSE3, .inlineFn .sha1_ssse3_capable sha1_ssse3_capable,
   .proto .sha1_block_data_order_ssse3,
   .define .SHA256_ASM_HW, .inlineFn .sha256_hw_capable sha256_hw_capable,
   .define .SHA256_ASM_AVX, .inlineFn .sha256_avx_capable sha256_avx_capable,
   .proto .sha256_block_data_order_avx,
   .define .SHA256_ASM_SSSE3, .inlineFn .sha256_ssse3_capable sha256_ssse3_capable,
   .proto .sha256_block_data_order_ssse3,
   .define .SHA512_ASM_AVX, .inlineFn .sha512_avx_capable sha512_avx_capable,
   .proto .sha512_block_data_order_avx]

end X86_64

/-- The `#if` / `#elif` chain of lines 119-311: the first branch whose condition
holds, or nothing. -/
def platformBranch (c : Config) : List Item :=
  if c.OPENSSL_PPC64LE then PPC64LE.items
  else if !c.OPENSSL_NO_ASM && c.OPENSSL_ARM then ARM.items
  else if !c.OPENSSL_NO_ASM && c.OPENSSL_AARCH64 then AARCH64.items
  else if !c.OPENSSL_NO_ASM && c.OPENSSL_X86 then X86.items
  else if !c.OPENSSL_NO_ASM && c.OPENSSL_X86_64 then X86_64.items
  else []

/-- Whether a feature macro is defined by the given lines (`defined(m)`). -/
def defined (items : List Item) (m : Feature) : Bool :=
  items.contains (.define m)

/-- The prototype declared under `#if defined(m)`. -/
def declaredIf (items : List Item) (m : Feature) (f : Fn) : List Item :=
  if defined items m then [.proto f] else []

/-- Lines 313-339: the `_hw` and `_nohw` prototypes, each under its own
`#if defined(...)`. -/
def guardedProtos (items : List Item) : List Item :=
  declaredIf items .SHA1_ASM_HW .sha1_block_data_order_hw ++
  declaredIf items .SHA1_ASM_NOHW .sha1_block_data_order_nohw ++
  declaredIf items .SHA256_ASM_HW .sha256_block_data_order_hw ++
  declaredIf items .SHA256_ASM_NOHW .sha256_block_data_order_nohw ++
  declaredIf items .SHA512_ASM_HW .sha512_block_data_order_hw ++
  declaredIf items .SHA512_ASM_NOHW .sha512_block_data_order_nohw

/-- Lines 341-343. -/
def keccakAsm (c : Config) : List Item :=
  if !c.OPENSSL_NO_ASM && c.OPENSSL_AARCH64 then [.define .KECCAK1600_ASM] else []

/-- The dispatch section as seen under a configuration. -/
def header (c : Config) : List Item :=
  platformBranch c ++ guardedProtos (platformBranch c) ++ keccakAsm c

/-- Whether the header defines an inline function of that name. -/
def definesFn (items : List Item) (f : Fn) : Bool :=
  items.any fun i =>
    match i with
    | .inlineFn g _ => g == f
    | _ => false

/-- Whether the header declares a prototype of that name. -/
def declares (items : List Item) (f : Fn) : Bool :=
  items.contains (.proto f)

/-- The inline predicates the given lines define, in order. -/
def predicates (items : List Item) : List (Fn × Cond) :=
  items.filterMap fun i =>
    match i with
    | .inlineFn f body => some (f, body)
    | _ => none

/-- The capability-guarded variants of each family: the feature macro and the
`*_capable` predicate that goes with it. -/
def guardedVariants : Family → List (Feature × Fn)
  | .SHA1 =>
      [(.SHA1_ASM_HW, .sha1_hw_capable), (.SHA1_ASM_AVX2, .sha1_avx2_capable),
       (.SHA1_ASM_AVX, .sha1_avx_capable), (.SHA1_ASM_SSSE3, .sha1_ssse3_capable)]
  | .SHA256 =>
      [(.SHA256_ASM_HW, .sha256_hw_capable), (.SHA256_ASM_AVX, .sha256_avx_capable),
       (.SHA256_ASM_SSSE3, .sha256_ssse3_capable)]
  | .SHA512 =>
      [(.SHA512_ASM_HW, .sha512_hw_capable), (.SHA512_ASM_AVX, .sha512_avx_capable)]

/-- The unguarded baseline of each family: its feature macro and the prototype
declared for it. -/
def baseline : Family → Feature × Fn
  | .SHA1 => (.SHA1_ASM_NOHW, .sha1_block_data_order_nohw)
  | .SHA256 => (.SHA256_ASM_NOHW, .sha256_block_data_order_nohw)
  | .SHA512 => (.SHA512_ASM_NOHW, .sha512_block_data_order_nohw)

/-- For each family, under a configuration: a guarded variant that the header
defines comes with the family's `NOHW` macro and its `_nohw` prototype. -/
def baselinePresent (c : Config) (fam : Family) : Bool :=
  (guardedVariants fam).all fun p =>
    !(defined (header c) p.1 || definesFn (header c) p.2) ||
      (defined (platformBranch c) (baseline fam).1 && defined (header c) (baseline fam).1 &&
        declares (header c) (baseline fam).2)

/-- Modelled from the spec: resolution of the Compression Dispatch Table, whose
code is not in this header. The candidates, each a capability predicate with
its implementation, are tried in order against the oracle; the first whose
predicate is true is bound, and the portable baseline if none is. -/
def resolve (o : Query → Int) (candidates : List (Cond × Fn)) (portable : Fn) : Fn :=
  match candidates.find? (fun p => evalCond o p.1 != 0) with
  | some p => p.2
  | none => portable

/-- An oracle that reports every capability present except BMI1. -/
def noBmi1 : Query → Int := fun q => if q = .CRYPTO_is_BMI1_capable then 0 else 1

/-- The configurations that select each of the four assembly branches. -/
def armConfig : Config := ⟨false, false, true, false, false, false⟩

/-- See `armConfig`. -/
def aarch64Config : Config := ⟨false, false, false, true, false, false⟩

/-- See `armConfig`. -/
def x86Config : Config := ⟨false, false, false, false, true, false⟩

/-- See `armConfig`. -/
def x86_64Config : Config := ⟨false, false, false, false, false, true⟩

/-! ## The Keccak phases -/

/-- The three phases the `state` field denotes (lines 80-88). -/
inductive Phase
  | ABSORB
  | SQUEEZE
  | FINAL
  deriving DecidableEq, Repr

/-- The flag constant of each phase. -/
def phaseFlag : Phase → Ident
  | .ABSORB => .KECCAK1600_STATE_ABSORB
  | .SQUEEZE => .KECCAK1600_STATE_SQUEEZE
  | .FINAL => .KECCAK1600_STATE_FINAL

/-- The value the `uint8_t` field `state` holds after a phase's flag is assigned
to it: the flag's value reduced modulo 2^8. -/
def storedState (p : Phase) : Fin (2 ^ 8) :=
  ⟨constant (phaseFlag p) % 2 ^ 8, Nat.mod_lt _ (by decide)⟩

/-- Modelled from the spec: the permitted phase changes, absorb to squeeze,
squeeze to final, and absorb to final directly; the functions that assign
`state` are defined outside this header. -/
def permitted : Phase → Phase → Bool
  | .ABSORB, .SQUEEZE => true
  | .SQUEEZE, .FINAL => true
  | .ABSORB, .FINAL => true
  | _, _ => false

/-- An oracle that reports every capability present. -/
def allPresent : Query → Int := fun _ => 1

/-! ## Theorems -/

section Constants

open Tok

/-- C1: each block (rate) size constant, expanded and evaluated as an expression
of its own, has the published value: 144, 136, 104, 72 for SHA3-224/256/384/512,
168 and 136 for SHAKE128/256, and `XOF_BLOCKBYTES` is `SHAKE128_BLOCKSIZE`, 168. -/
theorem C1_block_sizes_published :
    cValue [id .SHA3_224_CBLOCK] = some 144 ∧
    cValue [id .SHA3_256_CBLOCK] = some 136 ∧
    cValue [id .SHA3_384_CBLOCK] = some 104 ∧
    cValue [id .SHA3_512_CBLOCK] = some 72 ∧
    cValue [id .SHAKE128_BLOCKSIZE] = some 168 ∧
    cValue [id .SHAKE256_BLOCKSIZE] = some 136 ∧
    cValue [id .XOF_BLOCKBYTES] = some 168 ∧
    cValue [id .XOF_BLOCKBYTES] = cValue [id .SHAKE128_BLOCKSIZE] := by
  decide

/-- C2: each fixed digest length in bytes has its table value (28, 32, 48, 64)
and is exactly one eighth of the digest bit length: `BITLENGTH / 8` gives it and
`LENGTH * 8` gives the bit length back. -/
theorem C2_digest_lengths_eighth_of_bitlength :
    (cValue [id .SHA3_224_DIGEST_LENGTH] = some 28 ∧
      cValue [id .SHA3_224_DIGEST_BITLENGTH, slash, num 8] = some 28 ∧
      cValue [id .SHA3_224_DIGEST_LENGTH, star, num 8] = some 224 ∧
      cValue [id .SHA3_224_DIGEST_BITLENGTH] = some 224) ∧
    (cValue [id .SHA3_256_DIGEST_LENGTH] = some 32 ∧
      cValue [id .SHA3_256_DIGEST_BITLENGTH, slash, num 8] = some 32 ∧
      cValue [id .SHA3_256_DIGEST_LENGTH, star, num 8] = some 256 ∧
      cValue [id .SHA3_256_DIGEST_BITLENGTH] = some 256) ∧
    (cValue [id .SHA3_384_DIGEST_LENGTH] = some 48 ∧
      cValue [id .SHA3_384_DIGEST_BITLENGTH, slash, num 8] = some 48 ∧
      cValue [id .SHA3_384_DIGEST_LENGTH, star, num 8] = some 384 ∧
      cValue [id .SHA3_384_DIGEST_BITLENGTH] = some 384) ∧
    (cValue [id .SHA3_512_DIGEST_LENGTH] = some 64 ∧
      cValue [id .SHA3_512_DIGEST_BITLENGTH, slash, num 8] = some 64 ∧
      cValue [id .SHA3_512_DIGEST_LENGTH, star, num 8] = some 512 ∧
      cValue [id .SHA3_512_DIGEST_BITLENGTH] = some 512) := by
  decide

/-- C3: the padding byte is 0x06 for SHA3 (`SHA3_PAD_CHAR`) and 0x1F for SHAKE
(`SHAKE_PAD_CHAR`), and the two are different. -/
theorem C3_pad_chars :
    cValue [id .SHA3_PAD_CHAR] = some 0x06 ∧
    cValue [id .SHAKE_PAD_CHAR] = some 0x1F ∧
    cValue [id .SHA3_PAD_CHAR] ≠ cValue [id .SHAKE_PAD_CHAR] := by
  decide

/-- C4: for each of SHA3-224/256/384/512 the capacity constant and the block
size add up to the state size, `CAPACITY_BYTES + CBLOCK = KECCAK1600_WIDTH / 8 =
200`, and the capacity is `1600 / 8 - CBLOCK`. -/
theorem C4_capacity_complements_rate :
    cValue [id .KECCAK1600_WIDTH, slash, num 8] = some 200 ∧
    (cValue [id .SHA3_224_CAPACITY_BYTES, plus, id .SHA3_224_CBLOCK] = some 200 ∧
      cValue [num 1600, slash, num 8, minus, id .SHA3_224_CBLOCK] =
        cValue [id .SHA3_224_CAPACITY_BYTES]) ∧
    (cValue [id .SHA3_256_CAPACITY_BYTES, plus, id .SHA3_256_CBLOCK] = some 200 ∧
      cValue [num 1600, slash, num 8, minus, id .SHA3_256_CBLOCK] =
        cValue [id .SHA3_256_CAPACITY_BYTES]) ∧
    (cValue [id .SHA3_384_CAPACITY_BYTES, plus, id .SHA3_384_CBLOCK] = some 200 ∧
      cValue [num 1600, slash, num 8, minus, id .SHA3_384_CBLOCK] =
        cValue [id .SHA3_384_CAPACITY_BYTES]) ∧
    (cValue [id .SHA3_512_CAPACITY_BYTES, plus, id .SHA3_512_CBLOCK] = some 200 ∧
      cValue [num 1600, slash, num 8, minus, id .SHA3_512_CBLOCK] =
        cValue [id .SHA3_512_CAPACITY_BYTES]) := by
  decide

/-- C5: `SHA3_MAX_BLOCKSIZE` is `SHAKE128_BLOCKSIZE`, 168, and bounds the block
size of every algorithm; so in a context whose `block_size` is that of some
algorithm, a `buf_load` below `block_size` is an index of `buf`. -/
theorem C5_max_blocksize_bounds_buf_load (v : KeccakVariant) (ctx : keccak_ctx_st)
    (hsize : ctx.block_size = blockSize v) (hload : ctx.buf_load < ctx.block_size) :
    cValue [id .SHA3_MAX_BLOCKSIZE] = some 168 ∧
    cValue [id .SHA3_MAX_BLOCKSIZE] = cValue [id .SHAKE128_BLOCKSIZE] ∧
    blockSize v ≤ constant .SHA3_MAX_BLOCKSIZE ∧
    ctx.buf_load < constant .SHA3_MAX_BLOCKSIZE ∧
    ∃ i : Fin (constant .SHA3_MAX_BLOCKSIZE), i.val = ctx.buf_load := by
  have hle : blockSize v ≤ constant .SHA3_MAX_BLOCKSIZE := by
    cases v <;> decide
  have hlt : ctx.buf_load < constant .SHA3_MAX_BLOCKSIZE := by omega
  exact ⟨by decide, by decide, hle, hlt, ⟨⟨ctx.buf_load, hlt⟩, rfl⟩⟩

/-- C5, at the SHA3-256 block size with five bytes buffered. -/
theorem C5_max_blocksize_bounds_buf_load_witness :
    sha3_256_ctx.block_size = blockSize .SHA3_256 ∧
    sha3_256_ctx.buf_load < sha3_256_ctx.block_size ∧
    (cValue [id .SHA3_MAX_BLOCKSIZE] = some 168 ∧
      cValue [id .SHA3_MAX_BLOCKSIZE] = cValue [id .SHAKE128_BLOCKSIZE] ∧
      blockSize .SHA3_256 ≤ constant .SHA3_MAX_BLOCKSIZE ∧
      sha3_256_ctx.buf_load < constant .SHA3_MAX_BLOCKSIZE ∧
      ∃ i : Fin (constant .SHA3_MAX_BLOCKSIZE), i.val = sha3_256_ctx.buf_load) :=
  ⟨by decide, by decide,
    C5_max_blocksize_bounds_buf_load .SHA3_256 sha3_256_ctx (by decide) (by decide)⟩

/-- C9: the lane matrix `A` has `KECCAK1600_ROWS * KECCAK1600_ROWS = 25` lanes of
64 bits, and 25 lanes of 64 bits are `KECCAK1600_WIDTH = 1600` bits, 200 bytes. -/
theorem C9_keccak_state_dimensions :
    cValue [id .KECCAK1600_ROWS, star, id .KECCAK1600_ROWS] = some 25 ∧
    Fintype.card (Fin (constant .KECCAK1600_ROWS) × Fin (constant .KECCAK1600_ROWS)) = 25 ∧
    laneBits = 64 ∧
    cValue [id .KECCAK1600_ROWS, star, id .KECCAK1600_ROWS, star, num laneBits] =
      cValue [id .KECCAK1600_WIDTH] ∧
    cValue [id .KECCAK1600_WIDTH] = some 1600 ∧
    25 * 64 = 1600 ∧
    cValue [id .KECCAK1600_WIDTH, slash, num 8] = some 200 := by
  refine ⟨by decide, ?_, rfl, by decide, by decide, by decide, by decide⟩
  simp only [Fintype.card_prod, Fintype.card_fin]
  decide

/-- C10: as an operand of `/` or `%` a `SHA3_x_CBLOCK` does not denote its table
value. `SHA3_BLOCKSIZE` has no outer parentheses, so `n / SHA3_256_CBLOCK` is
`n / (1600 - 256 * 2) / 8`: at `n = 1088` it is 0 where `n / 136` and
`n / SHAKE256_BLOCKSIZE` are 8; and `n % SHA3_256_CBLOCK` is
`n % (1600 - 256 * 2) / 8`: at `n = 135` it is 16 where `n % 136` is 135. -/
theorem C10_cblock_operand_diverges :
    cValueAt 1088 [id .n, slash, id .SHA3_256_CBLOCK] = some 0 ∧
    cValueAt 1088 [id .n, slash, num 136] = some 8 ∧
    cValueAt 1088 [id .n, slash, id .SHAKE256_BLOCKSIZE] = some 8 ∧
    cValueAt 135 [id .n, percent, id .SHA3_256_CBLOCK] = some 16 ∧
    cValueAt 135 [id .n, percent, num 136] = some 135 ∧
    cValueAt 135 [id .n, percent, id .SHAKE256_BLOCKSIZE] = some 135 := by
  decide

/-- The expression `n / SHA3_x_CBLOCK` and `n % SHA3_x_CBLOCK` denote, for every
`n`: the division by 8 applies to the quotient, respectively the remainder, by
`1600 - 2 * bitlen`. -/
theorem cblock_operand_value (v : Nat) :
    cValueAt v [id .n, slash, id .SHA3_224_CBLOCK] = some (v / 1152 / 8) ∧
    cValueAt v [id .n, slash, id .SHA3_256_CBLOCK] = some (v / 1088 / 8) ∧
    cValueAt v [id .n, slash, id .SHA3_384_CBLOCK] = some (v / 832 / 8) ∧
    cValueAt v [id .n, slash, id .SHA3_512_CBLOCK] = some (v / 576 / 8) ∧
    cValueAt v [id .n, percent, id .SHA3_224_CBLOCK] = some (v % 1152 / 8) ∧
    cValueAt v [id .n, percent, id .SHA3_256_CBLOCK] = some (v % 1088 / 8) ∧
    cValueAt v [id .n, percent, id .SHA3_384_CBLOCK] = some (v % 832 / 8) ∧
    cValueAt v [id .n, percent, id .SHA3_512_CBLOCK] = some (v % 576 / 8) ∧
    cValueAt v [id .n, slash, id .SHAKE128_BLOCKSIZE] = some (v / 168) ∧
    cValueAt v [id .n, slash, id .SHAKE256_BLOCKSIZE] = some (v / 136) ∧
    cValueAt v [id .n, percent, id .SHAKE128_BLOCKSIZE] = some (v % 168) ∧
    cValueAt v [id .n, percent, id .SHAKE256_BLOCKSIZE] = some (v % 136) :=
  ⟨rfl, rfl, rfl, rfl, rfl, rfl, rfl, rfl, rfl, rfl, rfl, rfl⟩

/-- C8: each chaining length is the byte size of the state of the context the
function uses, `stateWords * stateWordBytes`: 5 x 4 = 20 for SHA-1, 8 x 4 = 32
for SHA-224 and SHA-256, 8 x 8 = 64 for SHA-384, SHA-512, SHA-512/224 and
SHA-512/256; a truncated function has the chaining length of the function it is
derived from, which is longer than its own digest. -/
theorem C8_chaining_lengths_match_state (v : ShaVariant) :
    cValue [id (chainingLengthName v)] =
      some (stateWords (contextFamily v) * stateWordBytes (contextFamily v)) ∧
    (cValue [id .SHA1_CHAINING_LENGTH] = some 20 ∧ 5 * 4 = 20 ∧
      cValue [id .SHA224_CHAINING_LENGTH] = some 32 ∧
      cValue [id .SHA256_CHAINING_LENGTH] = some 32 ∧ 8 * 4 = 32 ∧
      cValue [id .SHA384_CHAINING_LENGTH] = some 64 ∧
      cValue [id .SHA512_CHAINING_LENGTH] = some 64 ∧
      cValue [id .SHA512_224_CHAINING_LENGTH] = some 64 ∧
      cValue [id .SHA512_256_CHAINING_LENGTH] = some 64 ∧ 8 * 8 = 64) ∧
    ∀ parent, truncatedOf v = some parent →
      cValue [id (chainingLengthName v)] = cValue [id (chainingLengthName parent)] ∧
      constant (chainingLengthName parent) * 8 = digestBits parent ∧
      digestBits v / 8 < constant (chainingLengthName v) := by
  refine ⟨by cases v <;> decide, by decide, ?_⟩
  intro parent h
  cases v <;> cases parent <;> simp [truncatedOf] at h <;> decide

/-- C8, at SHA-224, derived from SHA-256. -/
theorem C8_chaining_lengths_match_state_witness :
    truncatedOf .SHA224 = some .SHA256 ∧
    cValue [id .SHA224_CHAINING_LENGTH] = cValue [id .SHA256_CHAINING_LENGTH] ∧
    constant .SHA256_CHAINING_LENGTH * 8 = 256 ∧
    224 / 8 < constant .SHA224_CHAINING_LENGTH :=
  ⟨rfl, (C8_chaining_lengths_match_state .SHA224).2.2 .SHA256 rfl⟩

/-- C11: every rate is a whole number of 64-bit lanes inside the state. For each
of the four SHA3 bit lengths `1600 - 2 * bitlen` is divisible by 8, so the
division in `SHA3_BLOCKSIZE` is exact (`CBLOCK * 8` gives it back); and each of
the six block sizes, 144, 136, 104, 72, 168, 136, is positive, a multiple of the
8 bytes of a lane, and below the 200 bytes of the state. -/
theorem C11_rates_cover_whole_lanes (v : KeccakVariant) :
    (cValue [lp, id .KECCAK1600_WIDTH, minus, id .SHA3_224_DIGEST_BITLENGTH, star, num 2, rp,
        percent, num 8] = some 0 ∧
      cValue [id .SHA3_224_CBLOCK, star, num 8] =
        cValue [id .KECCAK1600_WIDTH, minus, id .SHA3_224_DIGEST_BITLENGTH, star, num 2]) ∧
    (cValue [lp, id .KECCAK1600_WIDTH, minus, id .SHA3_256_DIGEST_BITLENGTH, star, num 2, rp,
        percent, num 8] = some 0 ∧
      cValue [id .SHA3_256_CBLOCK, star, num 8] =
        cValue [id .KECCAK1600_WIDTH, minus, id .SHA3_256_DIGEST_BITLENGTH, star, num 2]) ∧
    (cValue [lp, id .KECCAK1600_WIDTH, minus, id .SHA3_384_DIGEST_BITLENGTH, star, num 2, rp,
        percent, num 8] = some 0 ∧
      cValue [id .SHA3_384_CBLOCK, star, num 8] =
        cValue [id .KECCAK1600_WIDTH, minus, id .SHA3_384_DIGEST_BITLENGTH, star, num 2]) ∧
    (cValue [lp, id .KECCAK1600_WIDTH, minus, id .SHA3_512_DIGEST_BITLENGTH, star, num 2, rp,
        percent, num 8] = some 0 ∧
      cValue [id .SHA3_512_CBLOCK, star, num 8] =
        cValue [id .KECCAK1600_WIDTH, minus, id .SHA3_512_DIGEST_BITLENGTH, star, num 2]) ∧
    [KeccakVariant.SHA3_224, .SHA3_256, .SHA3_384, .SHA3_512, .SHAKE128, .SHAKE256].map
      (fun w => cValue [id (blockSizeName w)]) =
      [some 144, some 136, some 104, some 72, some 168, some 136] ∧
    cValue [id (blockSizeName v)] = some (blockSize v) ∧
    0 < blockSize v ∧
    blockSize v % (laneBits / 8) = 0 ∧
    blockSize v % 8 = 0 ∧
    blockSize v < 200 ∧
    cValue [id .KECCAK1600_WIDTH, slash, num 8] = some 200 := by
  refine ⟨by decide, by decide, by decide, by decide, by decide, ?_, ?_, ?_, ?_, ?_, by decide⟩ <;>
    cases v <;> decide

/-- C12: the phase flags are 0, 1 and 2, pairwise distinct, and fit the 8-bit
`state` field, which therefore holds them unchanged; every permitted phase change
(absorb to squeeze, squeeze to final, absorb to final) strictly increases the
stored value, and none decreases it. -/
theorem C12_phase_flags_increase (a b : Phase) :
    (cValue [id .KECCAK1600_STATE_ABSORB] = some 0 ∧
      cValue [id .KECCAK1600_STATE_SQUEEZE] = some 1 ∧
      cValue [id .KECCAK1600_STATE_FINAL] = some 2) ∧
    (storedState .ABSORB ≠ storedState .SQUEEZE ∧
      storedState .SQUEEZE ≠ storedState .FINAL ∧
      storedState .ABSORB ≠ storedState .FINAL) ∧
    (cValue [id (phaseFlag a)] = some (constant (phaseFlag a)) ∧
      constant (phaseFlag a) < 2 ^ 8 ∧
      (storedState a).val = constant (phaseFlag a)) ∧
    (storedState .ABSORB < storedState .SQUEEZE ∧
      storedState .SQUEEZE < storedState .FINAL) ∧
    (permitted a b = true → storedState a < storedState b ∧ ¬ storedState b < storedState a) := by
  refine ⟨by decide, by decide, by cases a <;> decide, by decide, ?_⟩
  cases a <;> cases b <;> decide

/-- C12, at the change from absorb to squeeze. -/
theorem C12_phase_flags_increase_witness :
    permitted .ABSORB .SQUEEZE = true ∧
    storedState .ABSORB < storedState .SQUEEZE ∧
    ¬ storedState .SQUEEZE < storedState .ABSORB :=
  ⟨rfl, (C12_phase_flags_increase .ABSORB .SQUEEZE).2.2.2.2 rfl⟩

/-- C13: for each of SHA3-224/256/384/512 the digest length is strictly less
than the block size (28 < 144, 32 < 136, 48 < 104, 64 < 72), so the digest lies
within one block. -/
theorem C13_digest_shorter_than_block :
    (cValue [id .SHA3_224_DIGEST_LENGTH] = some 28 ∧
      cValue [id .SHA3_224_CBLOCK] = some 144 ∧
      constant .SHA3_224_DIGEST_LENGTH < constant .SHA3_224_CBLOCK) ∧
    (cValue [id .SHA3_256_DIGEST_LENGTH] = some 32 ∧
      cValue [id .SHA3_256_CBLOCK] = some 136 ∧
      constant .SHA3_256_DIGEST_LENGTH < constant .SHA3_256_CBLOCK) ∧
    (cValue [id .SHA3_384_DIGEST_LENGTH] = some 48 ∧
      cValue [id .SHA3_384_CBLOCK] = some 104 ∧
      constant .SHA3_384_DIGEST_LENGTH < constant .SHA3_384_CBLOCK) ∧
    (cValue [id .SHA3_512_DIGEST_LENGTH] = some 64 ∧
      cValue [id .SHA3_512_CBLOCK] = some 72 ∧
      constant .SHA3_512_DIGEST_LENGTH < constant .SHA3_512_CBLOCK) := by
  decide

end Constants

section Dispatch

/-- A returned expression is zero as soon as one query it names returns zero. -/
theorem evalCond_eq_zero_of_consults (o : Query → Int) :
    ∀ (body : Cond) (q : Query), q ∈ consults body → o q = 0 → evalCond o body = 0
  | .call q1, q, hq, h0 => by
      have hq1 : q = q1 := by simpa [consults] using hq
      subst hq1
      simpa [evalCond] using h0
  | .and a b, q, hq, h0 => by
      have hmem : q ∈ consults a ∨ q ∈ consults b := by
        simpa [consults, List.mem_append] using hq
      rcases hmem with ha | hb
      · have := evalCond_eq_zero_of_consults o a q ha h0
        simp [evalCond, this]
      · have := evalCond_eq_zero_of_consults o b q hb h0
        simp [evalCond, this]

/-- Every returned expression names at least one query. -/
theorem consults_ne_nil : ∀ body : Cond, ∃ q, q ∈ consults body
  | .call q => ⟨q, by simp [consults]⟩
  | .and a _ => by
      obtain ⟨q, hq⟩ := consults_ne_nil a
      exact ⟨q, by simp [consults, hq]⟩

/-- With no capability reported, every returned expression is zero. -/
theorem evalCond_eq_zero_of_absent (o : Query → Int) (h : ∀ q, o q = 0) (body : Cond) :
    evalCond o body = 0 := by
  obtain ⟨q, hq⟩ := consults_ne_nil body
  exact evalCond_eq_zero_of_consults o body q hq (h q)

/-- When every candidate's predicate is zero the portable function is bound. -/
theorem resolve_eq_portable (o : Query → Int) (candidates : List (Cond × Fn)) (portable : Fn)
    (h : ∀ x ∈ candidates, evalCond o x.1 = 0) : resolve o candidates portable = portable := by
  have hnone : candidates.find? (fun p => evalCond o p.1 != 0) = none := by
    rw [List.find?_eq_none]
    intro x hx
    simp [h x hx]
  simp [resolve, hnone]

/-- The check `baselinePresent` succeeds for every configuration and family. -/
theorem baselinePresent_all (c : Config) (fam : Family) : baselinePresent c fam = true := by
  obtain ⟨p, a, r, r64, x, x64⟩ := c
  cases p <;> cases a <;> cases r <;> cases r64 <;> cases x <;> cases x64 <;>
    cases fam <;> decide

/-- C6: under every configuration of the platform macros (so in each of the ARM,
AArch64, x86 and x86-64 branches) and for every family, if the header defines a
capability-guarded variant of the family (its feature macro or its `*_capable`
predicate) then the selected branch defines the family's `SHAx_ASM_NOHW` and the
header declares `shax_block_data_order_nohw`. -/
theorem C6_guarded_variant_has_nohw_baseline (c : Config) (fam : Family) (p : Feature × Fn)
    (hp : p ∈ guardedVariants fam)
    (hdef : defined (header c) p.1 = true ∨ definesFn (header c) p.2 = true) :
    defined (platformBranch c) (baseline fam).1 = true ∧
    defined (header c) (baseline fam).1 = true ∧
    declares (header c) (baseline fam).2 = true := by
  have hall := baselinePresent_all c fam
  simp only [baselinePresent, List.all_eq_true] at hall
  have hpc := hall p hp
  have hand : (defined (platformBranch c) (baseline fam).1 = true ∧
      defined (header c) (baseline fam).1 = true) ∧
      declares (header c) (baseline fam).2 = true := by
    rcases hdef with h | h <;> simpa [h] using hpc
  exact ⟨hand.1.1, hand.1.2, hand.2⟩

/-- C6, on x86-64 for SHA-512, whose only guarded variant there is the AVX one. -/
theorem C6_guarded_variant_has_nohw_baseline_witness :
    (Feature.SHA512_ASM_AVX, Fn.sha512_avx_capable) ∈ guardedVariants .SHA512 ∧
    (defined (header x86_64Config) .SHA512_ASM_AVX = true ∨
      definesFn (header x86_64Config) .sha512_avx_capable = true) ∧
    (defined (platformBranch x86_64Config) .SHA512_ASM_NOHW = true ∧
      defined (header x86_64Config) .SHA512_ASM_NOHW = true ∧
      declares (header x86_64Config) .sha512_block_data_order_nohw = true) :=
  ⟨by decide, by decide,
    C6_guarded_variant_has_nohw_baseline x86_64Config .SHA512
      (.SHA512_ASM_AVX, .sha512_avx_capable) (by decide) (by decide)⟩

/-- C7: the capability predicates are total functions of the oracle, and under
every configuration each predicate the header defines returns 0 as soon as one
of the queries it names returns 0. When the oracle reports every capability
absent, every predicate returns 0, and a first-match resolution over any
candidates guarded by the header's predicates binds the portable function. The
predicates so covered are, per branch, the ones listed. -/
theorem C7_predicates_false_without_capability (c : Config) (o : Query → Int) :
    (∀ f body, Item.inlineFn f body ∈ header c →
      ∀ q ∈ consults body, o q = 0 → evalCond o body = 0) ∧
    ((∀ q, o q = 0) →
      (∀ f body, Item.inlineFn f body ∈ header c → evalCond o body = 0) ∧
      ∀ (candidates : List (Cond × Fn)) (portable : Fn),
        (∀ x ∈ candidates, ∃ f, Item.inlineFn f x.1 ∈ header c) →
        resolve o candidates portable = portable) ∧
    (predicates (header armConfig)).map Prod.fst =
      [.sha1_hw_capable, .sha256_hw_capable] ∧
    (predicates (header aarch64Config)).map Prod.fst =
      [.sha1_hw_capable, .sha256_hw_capable, .sha512_hw_capable] ∧
    (predicates (header x86Config)).map Prod.fst =
      [.sha1_ssse3_capable, .sha1_avx_capable, .sha256_ssse3_capable, .sha256_avx_capable] ∧
    (predicates (header x86_64Config)).map Prod.fst =
      [.sha1_hw_capable, .sha1_avx2_capable, .sha1_avx_capable, .sha1_ssse3_capable,
       .sha256_hw_capable, .sha256_avx_capable, .sha256_ssse3_capable,
       .sha512_avx_capable] := by
  refine ⟨?_, ?_, by decide, by decide, by decide, by decide⟩
  · intro _ body _ q hq h0
    exact evalCond_eq_zero_of_consults o body q hq h0
  · intro habsent
    refine ⟨fun _ body _ => evalCond_eq_zero_of_absent o habsent body, ?_⟩
    intro candidates portable _
    exact resolve_eq_portable o candidates portable
      (fun x _ => evalCond_eq_zero_of_absent o habsent x.1)

/-- C7, on x86-64 with an oracle that lacks only BMI1: `sha1_avx2_capable`, which
names that query, returns 0. -/
theorem C7_predicates_false_without_capability_witness :
    Item.inlineFn .sha1_avx2_capable X86_64.sha1_avx2_capable ∈ header x86_64Config ∧
    Query.CRYPTO_is_BMI1_capable ∈ consults X86_64.sha1_avx2_capable ∧
    noBmi1 .CRYPTO_is_BMI1_capable = 0 ∧
    evalCond noBmi1 X86_64.sha1_avx2_capable = 0 :=
  ⟨by decide, by decide, by decide,
    (C7_predicates_false_without_capability x86_64Config noBmi1).1
      .sha1_avx2_capable X86_64.sha1_avx2_capable (by decide)
      .CRYPTO_is_BMI1_capable (by decide) (by decide)⟩

/-- C14: on x86-64, for every oracle, each of `sha1_hw_capable`,
`sha1_avx2_capable` and `sha1_avx_capable` returning non-zero implies that
`sha1_ssse3_capable` returns non-zero; the four are the SHA-1 predicates the
x86-64 branch defines. -/
theorem C14_x86_64_sha1_predicates_nested (o : Query → Int) :
    (evalCond o X86_64.sha1_hw_capable ≠ 0 → evalCond o X86_64.sha1_ssse3_capable ≠ 0) ∧
    (evalCond o X86_64.sha1_avx2_capable ≠ 0 → evalCond o X86_64.sha1_ssse3_capable ≠ 0) ∧
    (evalCond o X86_64.sha1_avx_capable ≠ 0 → evalCond o X86_64.sha1_ssse3_capable ≠ 0) ∧
    (predicates (header x86_64Config)).take 4 =
      [(.sha1_hw_capable, X86_64.sha1_hw_capable),
       (.sha1_avx2_capable, X86_64.sha1_avx2_capable),
       (.sha1_avx_capable, X86_64.sha1_avx_capable),
       (.sha1_ssse3_capable, X86_64.sha1_ssse3_capable)] := by
  have key : ∀ body : Cond, Query.CRYPTO_is_SSSE3_capable ∈ consults body →
      evalCond o body ≠ 0 → evalCond o X86_64.sha1_ssse3_capable ≠ 0 := by
    intro body hmem hne h0
    exact hne (evalCond_eq_zero_of_consults o body _ hmem
      (by simpa [X86_64.sha1_ssse3_capable, evalCond] using h0))
  exact ⟨key _ (by decide), key _ (by decide), key _ (by decide), by decide⟩

/-- C14, with every capability present: `sha1_avx2_capable` holds, and so does
`sha1_ssse3_capable`. -/
theorem C14_x86_64_sha1_predicates_nested_witness :
    evalCond allPresent X86_64.sha1_avx2_capable ≠ 0 ∧
    evalCond allPresent X86_64.sha1_ssse3_capable ≠ 0 :=
  ⟨by decide, (C14_x86_64_sha1_predicates_nested allPresent).2.1 (by decide)⟩

end Dispatch

end ShaInternal
